import Mathlib

/-
Shallow embedding of two TypeScript modules of the hedera-smart-contracts
repository:

* `tools/erc-repository-indexer/erc-contract-indexer/src/services/contractScanner.ts`
  (the `ContractScannerService` class: `fetchContracts`, `fetchContractObject`,
  `contractCallRequest` and the shared `handleAxiosError` handler), and
* `system-contract-dapp-playground/src/api/wallet/index.ts`
  (the wallet collaborator: `getWalletObject`, `getWalletProvider`, `getBalance`,
  `getCurrentChainId`, `requestAccount`, `addEthereumChain`,
  `switchToHederaTestnet`).

The HTTP layer is modelled by a list of planned server outcomes, one per issued
request attempt; each scanner operation consumes that list, retrying on a
rate-limit outcome exactly as the source recurses.  Every run records the
resolved value (TS `null` is `Option.none`), the emitted console log entries,
and the request parameters issued, so that logging and retry claims are
statable.  A run whose outcome list is exhausted is `pending` (the promise is
still awaiting a server reply); a JavaScript exception escaping a function is
the explicit `thrown` constructor.
-/

namespace ContractScanner

/-- A console log entry: `console.log` is `info`, `console.error` is `error`. -/
inductive LogEntry where
  | info (msg : String)
  | error (msg : String)
  deriving DecidableEq, Repr

/-- Whether a log entry was emitted through `console.error`. -/
def LogEntry.isErrorEntry : LogEntry → Bool
  | .error _ => true
  | .info _ => false

/-- Number of `console.error` emissions in a log list. -/
def errorLogCount (logs : List LogEntry) : Nat :=
  (logs.filter LogEntry.isErrorEntry).length

/-- The observable part of an Axios error: `(error as AxiosError).response?.status`.
`status?` is `none` for a network error carrying no HTTP response. -/
structure AxiosErrorLike where
  status? : Option Nat
  deriving DecidableEq, Repr

/-- One planned server outcome for one request attempt: a success response with
a decoded body, or a thrown Axios error. -/
inductive HttpOutcome (β : Type) where
  | success (body : β)
  | failure (err : AxiosErrorLike)
  deriving DecidableEq

/-- Whether an outcome is an HTTP 429 rate-limit failure. -/
def isRateLimited {β : Type} : HttpOutcome β → Bool
  | .failure err => err.status? == some 429
  | .success _ => false

/-- How a scanner promise resolves: `ok v` is a normal resolution (`v = none`
is the TS `null`), `thrown` is an exception escaping the operation, and
`pending` means the planned outcome list was exhausted while the operation was
still awaiting a server reply. -/
inductive RunOutcome (α : Type) where
  | ok (value : Option α)
  | thrown (msg : String)
  | pending
  deriving DecidableEq

/-- Whether a run outcome is an escaped exception. -/
def RunOutcome.isThrown {α : Type} : RunOutcome α → Bool
  | .thrown _ => true
  | .ok _ => false
  | .pending => false

/-- A finished (or suspended) operation run: its resolution, the console log
entries emitted, and the request parameters issued, in order. -/
structure Run (ρ α : Type) where
  result : RunOutcome α
  logs : List LogEntry
  requests : List ρ
  deriving DecidableEq

/-- `this.contractCallRequest.name` in the source. -/
def contractCallRequestName : String := "contractCallRequest"

/-- Message of the retry log in `handleAxiosError`. -/
def rateLimitLogMsg : String := "Rate limit exceeded. Retrying..."

/-- Message of the error log in `handleAxiosError`. -/
def mirrorNodeErrorMsg : String := "Error returned from the mirror node:"

/-- Message of the per-attempt info log in `fetchContracts`. -/
def fetchLogMsg : String := "Fetching contract batch from URL:"

/-- `ContractScannerService.handleAxiosError`: classifies the caught error and
either re-issues the request (HTTP 429, after the fixed delay, prepending the
retry info log), or resolves to `null`, logging the error exactly when
`!isBadRequestError && retryMethod.name !== this.contractCallRequest.name`.
`retryRun` is the run produced by `retryMethod.call(this, param)`. -/
def handleAxiosError {ρ α : Type} (error : AxiosErrorLike) (retryMethodName : String)
    (retryRun : Run ρ α) : Run ρ α :=
  if error.status? == some 429 then
    { result := retryRun.result,
      logs := LogEntry.info rateLimitLogMsg :: retryRun.logs,
      requests := retryRun.requests }
  else if !(error.status? == some 400) && retryMethodName != contractCallRequestName then
    { result := RunOutcome.ok none,
      logs := [LogEntry.error mirrorNodeErrorMsg],
      requests := [] }
  else
    { result := RunOutcome.ok none, logs := [], requests := [] }

/-- `links` field of a list-page response body. -/
structure Links where
  next : Option String
  deriving DecidableEq

/-- One contract summary in a list-page response. -/
structure MirrorNodeContract where
  contractId : String
  deriving DecidableEq

/-- Decoded body of a successful list request: `{ contracts, links }`. -/
structure ContractListBody where
  contracts : List MirrorNodeContract
  links : Links
  deriving DecidableEq

/-- Decoded body of a successful detail request (full record with bytecode). -/
structure MirrorNodeContractResponse where
  contractId : String
  bytecode : String
  deriving DecidableEq

/-- Call descriptor posted to the call-execution endpoint. -/
structure ContractCallData where
  «to» : String
  data : String
  deriving DecidableEq

/-- Decoded body of a successful call-execution response: `{ result }`. -/
structure ContractCallBody where
  result : String
  deriving DecidableEq

/-- The query carried by a constructed list URL. -/
structure ListQuery where
  limit : Nat
  cursor : Option String
  deriving DecidableEq

/-- Modelled from the spec: `Helper.buildUrl` (in `utils/helper.ts`, not among
the scanned sources) builds the list URL from the fixed page-size bound and the
given cursor; the cursor query parameter is omitted when the cursor is absent. -/
def buildUrl (next : Option String) (scanContractLimit : Nat) : ListQuery :=
  { limit := scanContractLimit, cursor := next }

/-- Modelled from the spec: `constants.GET_CONTRACT_ENDPOINT`, the base path of
the detail endpoint (`GET base/contractId`); the exact value is immaterial. -/
def GET_CONTRACT_ENDPOINT : String := "/api/v1/contracts"

/-- The path of a detail request for a given contract id. -/
def detailPath (contractId : String) : String :=
  GET_CONTRACT_ENDPOINT ++ "/" ++ contractId

/-- `ContractScannerService.fetchContracts`: logs the URL, issues the list
request built by `buildUrl`, returns the decoded body on success, and delegates
failures to `handleAxiosError` with itself as the retry method and `next` as
the retry parameter. -/
def fetchContracts (scanContractLimit : Nat) (next : Option String) :
    List (HttpOutcome ContractListBody) → Run ListQuery ContractListBody
  | [] =>
      { result := RunOutcome.pending,
        logs := [LogEntry.info fetchLogMsg],
        requests := [buildUrl next scanContractLimit] }
  | HttpOutcome.success body :: _ =>
      { result := RunOutcome.ok (some body),
        logs := [LogEntry.info fetchLogMsg],
        requests := [buildUrl next scanContractLimit] }
  | HttpOutcome.failure error :: rest =>
      let handled := handleAxiosError error "fetchContracts"
        (fetchContracts scanContractLimit next rest)
      { result := handled.result,
        logs := LogEntry.info fetchLogMsg :: handled.logs,
        requests := buildUrl next scanContractLimit :: handled.requests }

/-- `ContractScannerService.fetchContractObject`: issues the detail request for
`contractId`, returns the decoded body on success, and delegates failures to
`handleAxiosError` with itself as the retry method and `contractId` as the
retry parameter. -/
def fetchContractObject (contractId : String) :
    List (HttpOutcome MirrorNodeContractResponse) → Run String MirrorNodeContractResponse
  | [] =>
      { result := RunOutcome.pending, logs := [], requests := [detailPath contractId] }
  | HttpOutcome.success body :: _ =>
      { result := RunOutcome.ok (some body), logs := [], requests := [detailPath contractId] }
  | HttpOutcome.failure error :: rest =>
      let handled := handleAxiosError error "fetchContractObject"
        (fetchContractObject contractId rest)
      { result := handled.result,
        logs := handled.logs,
        requests := detailPath contractId :: handled.requests }

/-- `ContractScannerService.contractCallRequest`: posts `callData` to the
call-execution endpoint, returns `response.data.result` on success, and
delegates failures to `handleAxiosError` with itself as the retry method and
`callData` as the retry parameter. -/
def contractCallRequest (callData : ContractCallData) :
    List (HttpOutcome ContractCallBody) → Run ContractCallData String
  | [] =>
      { result := RunOutcome.pending, logs := [], requests := [callData] }
  | HttpOutcome.success body :: _ =>
      { result := RunOutcome.ok (some body.result), logs := [], requests := [callData] }
  | HttpOutcome.failure error :: rest =>
      let handled := handleAxiosError error contractCallRequestName
        (contractCallRequest callData rest)
      { result := handled.result,
        logs := handled.logs,
        requests := callData :: handled.requests }

end ContractScanner

namespace Wallet

/-- The injected `window.ethereum` object (opaque to the wallet module). -/
structure EthereumObj where
  id : Nat
  deriving DecidableEq

/-- The browser `window` object, whose `ethereum` property may be absent. -/
structure WindowObj where
  ethereum : Option EthereumObj
  deriving DecidableEq

/-- `getWalletObject`: returns `window.ethereum` when `window` is defined and
`undefined` otherwise; the argument is `none` when `typeof window` is
`undefined`. -/
def getWalletObject (window : Option WindowObj) : Option EthereumObj :=
  match window with
  | some w => w.ethereum
  | none => none

/-- The inner object at `error.error` of a caught provider error; `code` is
`none` when that object carries no numeric `code` property. -/
structure InnerErrorObj where
  code : Option Int
  deriving DecidableEq

/-- A value caught by a wallet-side `catch` clause: `inner` models the `error`
property of the caught value (`none` when absent, in which case a further
`.code` access throws a TypeError). -/
structure CaughtError where
  inner : Option InnerErrorObj
  deriving DecidableEq

/-- The value stored in the `err` field of an `IWalletResult`. -/
inductive ErrField where
  | nullValue
  | caught (e : CaughtError)
  | message (s : String)
  deriving DecidableEq

/-- A resolved `IWalletResult` value: an optional `err` field and an optional
success payload. -/
structure IWalletResult (α : Type) where
  err : Option ErrField
  payload : Option α
  deriving DecidableEq

/-- How a wallet-side async function finishes: a returned value or an
exception escaping its boundary. -/
inductive JsResult (α : Type) where
  | returns (v : α)
  | throws (msg : String)
  deriving DecidableEq

/-- Whether a wallet call let an exception escape. -/
def JsResult.isThrows {α : Type} : JsResult α → Bool
  | .returns _ => false
  | .throws _ => true

/-- Behaviour of one `walletProvider.send` call: resolution with a payload or
rejection with a caught error value. -/
inductive SendOutcome (α : Type) where
  | resolve (v : α)
  | reject (e : CaughtError)
  deriving DecidableEq

/-- What `getWalletProvider` returns: the structured error value or a
`BrowserProvider` constructed over the wallet object. -/
inductive ProviderResult where
  | errResult (e : ErrField)
  | provider (source : EthereumObj)
  deriving DecidableEq

/-- `getWalletProvider`: returns the structured error value when no wallet
object is available, otherwise wraps the wallet object in a provider. -/
def getWalletProvider (window : Option WindowObj) : ProviderResult :=
  match getWalletObject window with
  | none => ProviderResult.errResult (ErrField.message "!HEDERA")
  | some walletObject => ProviderResult.provider walletObject

/-- `getBalance`: sends `eth_getBalance`; returns the balance payload on
resolution and the caught error as a structured value on rejection. -/
def getBalance (account : String) (outcome : SendOutcome String) :
    JsResult (IWalletResult String) :=
  match account, outcome with
  | _, .resolve balance => .returns { err := none, payload := some balance }
  | _, .reject err => .returns { err := some (.caught err), payload := none }

/-- `getCurrentChainId`: sends `eth_chainId`; same shape as `getBalance`. -/
def getCurrentChainId (outcome : SendOutcome String) : JsResult (IWalletResult String) :=
  match outcome with
  | .resolve currentChainId => .returns { err := none, payload := some currentChainId }
  | .reject err => .returns { err := some (.caught err), payload := none }

/-- `requestAccount`: sends `eth_requestAccounts`; same shape as `getBalance`. -/
def requestAccount (outcome : SendOutcome (List String)) :
    JsResult (IWalletResult (List String)) :=
  match outcome with
  | .resolve accounts => .returns { err := none, payload := some accounts }
  | .reject err => .returns { err := some (.caught err), payload := none }

/-- `addEthereumChain`: sends `wallet_addEthereumChain`; resolves to
`¦ err: null ¦` on success and to the caught error on rejection. -/
def addEthereumChain (outcome : SendOutcome Unit) : JsResult (IWalletResult Unit) :=
  match outcome with
  | .resolve _ => .returns { err := some ErrField.nullValue, payload := none }
  | .reject err => .returns { err := some (.caught err), payload := none }

/-- `switchToHederaTestnet`: sends `wallet_switchEthereumChain`; on rejection
it reads `error.error.code` — a TypeError escapes when the caught value has no
`error` property — and falls back to `addEthereumChain` when that code is
4902, otherwise returns the caught error as a structured value. -/
def switchToHederaTestnet (switchOutcome : SendOutcome Unit) (addOutcome : SendOutcome Unit) :
    JsResult (IWalletResult Unit) :=
  match switchOutcome with
  | .resolve _ => .returns { err := some ErrField.nullValue, payload := none }
  | .reject error =>
      match error.inner with
      | none => .throws "TypeError: cannot read property code of undefined"
      | some innerObj =>
          if innerObj.code = some 4902 then
            match addEthereumChain addOutcome with
            | .returns r => .returns r
            | .throws addErrorMsg => .returns { err := some (.message addErrorMsg), payload := none }
          else
            .returns { err := some (.caught error), payload := none }

end Wallet

namespace ContractScanner

theorem handleAxiosError_of_rateLimit {ρ α : Type} (error : AxiosErrorLike)
    (retryMethodName : String) (retryRun : Run ρ α) (h : error.status? = some 429) :
    handleAxiosError error retryMethodName retryRun =
      { result := retryRun.result,
        logs := LogEntry.info rateLimitLogMsg :: retryRun.logs,
        requests := retryRun.requests } := by
  simp [handleAxiosError, h]

theorem handleAxiosError_of_not_rateLimit {ρ α : Type} (error : AxiosErrorLike)
    (retryMethodName : String) (retryRun : Run ρ α) (h : error.status? ≠ some 429) :
    (handleAxiosError error retryMethodName retryRun).result = RunOutcome.ok none ∧
    (handleAxiosError error retryMethodName retryRun).requests = [] := by
  simp only [handleAxiosError, beq_iff_eq, if_neg h]
  split <;> exact ⟨rfl, rfl⟩

theorem handleAxiosError_result_or {ρ α : Type} (error : AxiosErrorLike)
    (retryMethodName : String) (retryRun : Run ρ α) :
    (handleAxiosError error retryMethodName retryRun).result = retryRun.result ∨
    (handleAxiosError error retryMethodName retryRun).result = RunOutcome.ok none := by
  unfold handleAxiosError
  split
  · exact Or.inl rfl
  · split <;> exact Or.inr rfl

theorem handleAxiosError_requests_mem {ρ α : Type} (error : AxiosErrorLike)
    (retryMethodName : String) (retryRun : Run ρ α) (q : ρ)
    (hq : q ∈ (handleAxiosError error retryMethodName retryRun).requests) :
    q ∈ retryRun.requests := by
  unfold handleAxiosError at hq
  split at hq
  · exact hq
  · split at hq <;> simp at hq

end ContractScanner

namespace ContractScanner

theorem fetchContracts_requests_eq (scanContractLimit : Nat) (next : Option String) :
    ∀ (replies : List (HttpOutcome ContractListBody)) (q : ListQuery),
      q ∈ (fetchContracts scanContractLimit next replies).requests →
      q = buildUrl next scanContractLimit := by
  intro replies
  induction replies with
  | nil => intro q hq; simpa [fetchContracts] using hq
  | cons head rest ih =>
      intro q hq
      cases head with
      | success body => simpa [fetchContracts] using hq
      | failure error =>
          simp only [fetchContracts, List.mem_cons] at hq
          rcases hq with hq | hq
          · exact hq
          · exact ih q (handleAxiosError_requests_mem _ _ _ _ hq)

theorem fetchContractObject_requests_eq (contractId : String) :
    ∀ (replies : List (HttpOutcome MirrorNodeContractResponse)) (q : String),
      q ∈ (fetchContractObject contractId replies).requests → q = detailPath contractId := by
  intro replies
  induction replies with
  | nil => intro q hq; simpa [fetchContractObject] using hq
  | cons head rest ih =>
      intro q hq
      cases head with
      | success body => simpa [fetchContractObject] using hq
      | failure error =>
          simp only [fetchContractObject, List.mem_cons] at hq
          rcases hq with hq | hq
          · exact hq
          · exact ih q (handleAxiosError_requests_mem _ _ _ _ hq)

theorem contractCallRequest_requests_eq (callData : ContractCallData) :
    ∀ (replies : List (HttpOutcome ContractCallBody)) (q : ContractCallData),
      q ∈ (contractCallRequest callData replies).requests → q = callData := by
  intro replies
  induction replies with
  | nil => intro q hq; simpa [contractCallRequest] using hq
  | cons head rest ih =>
      intro q hq
      cases head with
      | success body => simpa [contractCallRequest] using hq
      | failure error =>
          simp only [contractCallRequest, List.mem_cons] at hq
          rcases hq with hq | hq
          · exact hq
          · exact ih q (handleAxiosError_requests_mem _ _ _ _ hq)

theorem fetchContracts_not_thrown (scanContractLimit : Nat) (next : Option String) :
    ∀ (replies : List (HttpOutcome ContractListBody)),
      ((fetchContracts scanContractLimit next replies).result).isThrown = false := by
  intro replies
  induction replies with
  | nil => rfl
  | cons head rest ih =>
      cases head with
      | success body => rfl
      | failure error =>
          show ((handleAxiosError error "fetchContracts"
            (fetchContracts scanContractLimit next rest)).result).isThrown = false
          rcases handleAxiosError_result_or error "fetchContracts"
            (fetchContracts scanContractLimit next rest) with h | h
          · rw [h]; exact ih
          · rw [h]; rfl

theorem fetchContractObject_not_thrown (contractId : String) :
    ∀ (replies : List (HttpOutcome MirrorNodeContractResponse)),
      ((fetchContractObject contractId replies).result).isThrown = false := by
  intro replies
  induction replies with
  | nil => rfl
  | cons head rest ih =>
      cases head with
      | success body => rfl
      | failure error =>
          show ((handleAxiosError error "fetchContractObject"
            (fetchContractObject contractId rest)).result).isThrown = false
          rcases handleAxiosError_result_or error "fetchContractObject"
            (fetchContractObject contractId rest) with h | h
          · rw [h]; exact ih
          · rw [h]; rfl

theorem contractCallRequest_not_thrown (callData : ContractCallData) :
    ∀ (replies : List (HttpOutcome ContractCallBody)),
      ((contractCallRequest callData replies).result).isThrown = false := by
  intro replies
  induction replies with
  | nil => rfl
  | cons head rest ih =>
      cases head with
      | success body => rfl
      | failure error =>
          show ((handleAxiosError error contractCallRequestName
            (contractCallRequest callData rest)).result).isThrown = false
          rcases handleAxiosError_result_or error contractCallRequestName
            (contractCallRequest callData rest) with h | h
          · rw [h]; exact ih
          · rw [h]; rfl

end ContractScanner

namespace ContractScanner

theorem fetchContracts_rateLimited_prefix (scanContractLimit : Nat) (next : Option String) :
    ∀ (pre tail : List (HttpOutcome ContractListBody)),
      (∀ o ∈ pre, isRateLimited o = true) →
      (fetchContracts scanContractLimit next (pre ++ tail)).result =
        (fetchContracts scanContractLimit next tail).result := by
  intro pre
  induction pre with
  | nil => intro tail _; rfl
  | cons head rest ih =>
      intro tail h
      have hhead : isRateLimited head = true := h head (List.mem_cons_self head rest)
      cases head with
      | success body => simp [isRateLimited] at hhead
      | failure error =>
          have herr : error.status? = some 429 := by
            simpa [isRateLimited] using hhead
          have step : (fetchContracts scanContractLimit next
              ((HttpOutcome.failure error :: rest) ++ tail)).result =
              (fetchContracts scanContractLimit next (rest ++ tail)).result := by
            show ((handleAxiosError error "fetchContracts"
              (fetchContracts scanContractLimit next (rest ++ tail))).result) = _
            rw [handleAxiosError_of_rateLimit _ _ _ herr]
          rw [step]
          exact ih tail (fun o ho => h o (List.mem_cons_of_mem _ ho))

theorem fetchContractObject_rateLimited_prefix (contractId : String) :
    ∀ (pre tail : List (HttpOutcome MirrorNodeContractResponse)),
      (∀ o ∈ pre, isRateLimited o = true) →
      (fetchContractObject contractId (pre ++ tail)).result =
        (fetchContractObject contractId tail).result := by
  intro pre
  induction pre with
  | nil => intro tail _; rfl
  | cons head rest ih =>
      intro tail h
      have hhead : isRateLimited head = true := h head (List.mem_cons_self head rest)
      cases head with
      | success body => simp [isRateLimited] at hhead
      | failure error =>
          have herr : error.status? = some 429 := by
            simpa [isRateLimited] using hhead
          have step : (fetchContractObject contractId
              ((HttpOutcome.failure error :: rest) ++ tail)).result =
              (fetchContractObject contractId (rest ++ tail)).result := by
            show ((handleAxiosError error "fetchContractObject"
              (fetchContractObject contractId (rest ++ tail))).result) = _
            rw [handleAxiosError_of_rateLimit _ _ _ herr]
          rw [step]
          exact ih tail (fun o ho => h o (List.mem_cons_of_mem _ ho))

theorem contractCallRequest_rateLimited_prefix (callData : ContractCallData) :
    ∀ (pre tail : List (HttpOutcome ContractCallBody)),
      (∀ o ∈ pre, isRateLimited o = true) →
      (contractCallRequest callData (pre ++ tail)).result =
        (contractCallRequest callData tail).result := by
  intro pre
  induction pre with
  | nil => intro tail _; rfl
  | cons head rest ih =>
      intro tail h
      have hhead : isRateLimited head = true := h head (List.mem_cons_self head rest)
      cases head with
      | success body => simp [isRateLimited] at hhead
      | failure error =>
          have herr : error.status? = some 429 := by
            simpa [isRateLimited] using hhead
          have step : (contractCallRequest callData
              ((HttpOutcome.failure error :: rest) ++ tail)).result =
              (contractCallRequest callData (rest ++ tail)).result := by
            show ((handleAxiosError error contractCallRequestName
              (contractCallRequest callData (rest ++ tail))).result) = _
            rw [handleAxiosError_of_rateLimit _ _ _ herr]
          rw [step]
          exact ih tail (fun o ho => h o (List.mem_cons_of_mem _ ho))

theorem fetchContracts_resolves (scanContractLimit : Nat) (next : Option String) :
    ∀ (replies : List (HttpOutcome ContractListBody)),
      (∃ o ∈ replies, isRateLimited o = false) →
      ∃ v, (fetchContracts scanContractLimit next replies).result = RunOutcome.ok v := by
  intro replies
  induction replies with
  | nil => rintro ⟨o, ho, _⟩; simp at ho
  | cons head rest ih =>
      rintro ⟨o, ho, hno⟩
      cases head with
      | success body => exact ⟨some body, rfl⟩
      | failure error =>
          by_cases h429 : error.status? = some 429
          · have hor : o ∈ rest := by
              rcases List.mem_cons.mp ho with rfl | h
              · simp [isRateLimited, h429] at hno
              · exact h
            have step : (fetchContracts scanContractLimit next
                (HttpOutcome.failure error :: rest)).result =
                (fetchContracts scanContractLimit next rest).result := by
              show ((handleAxiosError error "fetchContracts"
                (fetchContracts scanContractLimit next rest)).result) = _
              rw [handleAxiosError_of_rateLimit _ _ _ h429]
            rw [step]
            exact ih ⟨o, hor, hno⟩
          · refine ⟨none, ?_⟩
            show ((handleAxiosError error "fetchContracts"
              (fetchContracts scanContractLimit next rest)).result) = _
            exact (handleAxiosError_of_not_rateLimit _ _ _ h429).1

theorem fetchContractObject_resolves (contractId : String) :
    ∀ (replies : List (HttpOutcome MirrorNodeContractResponse)),
      (∃ o ∈ replies, isRateLimited o = false) →
      ∃ v, (fetchContractObject contractId replies).result = RunOutcome.ok v := by
  intro replies
  induction replies with
  | nil => rintro ⟨o, ho, _⟩; simp at ho
  | cons head rest ih =>
      rintro ⟨o, ho, hno⟩
      cases head with
      | success body => exact ⟨some body, rfl⟩
      | failure error =>
          by_cases h429 : error.status? = some 429
          · have hor : o ∈ rest := by
              rcases List.mem_cons.mp ho with rfl | h
              · simp [isRateLimited, h429] at hno
              · exact h
            have step : (fetchContractObject contractId
                (HttpOutcome.failure error :: rest)).result =
                (fetchContractObject contractId rest).result := by
              show ((handleAxiosError error "fetchContractObject"
                (fetchContractObject contractId rest)).result) = _
              rw [handleAxiosError_of_rateLimit _ _ _ h429]
            rw [step]
            exact ih ⟨o, hor, hno⟩
          · refine ⟨none, ?_⟩
            show ((handleAxiosError error "fetchContractObject"
              (fetchContractObject contractId rest)).result) = _
            exact (handleAxiosError_of_not_rateLimit _ _ _ h429).1

theorem contractCallRequest_resolves (callData : ContractCallData) :
    ∀ (replies : List (HttpOutcome ContractCallBody)),
      (∃ o ∈ replies, isRateLimited o = false) →
      ∃ v, (contractCallRequest callData replies).result = RunOutcome.ok v := by
  intro replies
  induction replies with
  | nil => rintro ⟨o, ho, _⟩; simp at ho
  | cons head rest ih =>
      rintro ⟨o, ho, hno⟩
      cases head with
      | success body => exact ⟨some body.result, rfl⟩
      | failure error =>
          by_cases h429 : error.status? = some 429
          · have hor : o ∈ rest := by
              rcases List.mem_cons.mp ho with rfl | h
              · simp [isRateLimited, h429] at hno
              · exact h
            have step : (contractCallRequest callData
                (HttpOutcome.failure error :: rest)).result =
                (contractCallRequest callData rest).result := by
              show ((handleAxiosError error contractCallRequestName
                (contractCallRequest callData rest)).result) = _
              rw [handleAxiosError_of_rateLimit _ _ _ h429]
            rw [step]
            exact ih ⟨o, hor, hno⟩
          · refine ⟨none, ?_⟩
            show ((handleAxiosError error contractCallRequestName
              (contractCallRequest callData rest)).result) = _
            exact (handleAxiosError_of_not_rateLimit _ _ _ h429).1

end ContractScanner

open ContractScanner Wallet

/-- C1: at an HTTP 400 reply, the call-execution path (`contractCallRequest`)
resolves to null with zero log emissions as the claim states; but the list path
(`fetchContracts`) and detail path (`fetchContractObject`) also emit zero
error-level logs, where the claim requires exactly one — the guard
`!isBadRequestError && name !== contractCallRequest` suppresses the log for
every 400, on every path. -/
theorem c1_bad_request_logging_divergence :
    (contractCallRequest ⟨"0xabc", "0x01"⟩ [HttpOutcome.failure ⟨some 400⟩]).result
        = RunOutcome.ok none ∧
    (contractCallRequest ⟨"0xabc", "0x01"⟩ [HttpOutcome.failure ⟨some 400⟩]).logs = [] ∧
    (fetchContracts 100 none [HttpOutcome.failure ⟨some 400⟩]).result = RunOutcome.ok none ∧
    errorLogCount (fetchContracts 100 none [HttpOutcome.failure ⟨some 400⟩]).logs = 0 ∧
    (fetchContractObject "0.0.999" [HttpOutcome.failure ⟨some 400⟩]).result = RunOutcome.ok none ∧
    errorLogCount (fetchContractObject "0.0.999" [HttpOutcome.failure ⟨some 400⟩]).logs = 0 :=
  ⟨rfl, rfl, rfl, rfl, rfl, rfl⟩

/-- C2: any finite run of HTTP 429 replies followed by a success reply resolves
each of the three operations to the very result the immediate success would
have produced — the retry is invisible in the returned value. -/
theorem c2_rate_limit_retry_invisible :
    (∀ (scanContractLimit : Nat) (next : Option String)
       (pre : List (HttpOutcome ContractListBody)) (body : ContractListBody),
       (∀ o ∈ pre, isRateLimited o = true) →
       (fetchContracts scanContractLimit next (pre ++ [HttpOutcome.success body])).result =
         (fetchContracts scanContractLimit next [HttpOutcome.success body]).result ∧
       (fetchContracts scanContractLimit next (pre ++ [HttpOutcome.success body])).result =
         RunOutcome.ok (some body)) ∧
    (∀ (contractId : String)
       (pre : List (HttpOutcome MirrorNodeContractResponse)) (body : MirrorNodeContractResponse),
       (∀ o ∈ pre, isRateLimited o = true) →
       (fetchContractObject contractId (pre ++ [HttpOutcome.success body])).result =
         (fetchContractObject contractId [HttpOutcome.success body]).result ∧
       (fetchContractObject contractId (pre ++ [HttpOutcome.success body])).result =
         RunOutcome.ok (some body)) ∧
    (∀ (callData : ContractCallData)
       (pre : List (HttpOutcome ContractCallBody)) (body : ContractCallBody),
       (∀ o ∈ pre, isRateLimited o = true) →
       (contractCallRequest callData (pre ++ [HttpOutcome.success body])).result =
         (contractCallRequest callData [HttpOutcome.success body]).result ∧
       (contractCallRequest callData (pre ++ [HttpOutcome.success body])).result =
         RunOutcome.ok (some body.result)) := by
  refine ⟨?_, ?_, ?_⟩
  · intro scanContractLimit next pre body h
    have heq := fetchContracts_rateLimited_prefix scanContractLimit next pre
      [HttpOutcome.success body] h
    exact ⟨heq, heq.trans rfl⟩
  · intro contractId pre body h
    have heq := fetchContractObject_rateLimited_prefix contractId pre
      [HttpOutcome.success body] h
    exact ⟨heq, heq.trans rfl⟩
  · intro callData pre body h
    have heq := contractCallRequest_rateLimited_prefix callData pre
      [HttpOutcome.success body] h
    exact ⟨heq, heq.trans rfl⟩

/-- Witness for C2: one rate-limit reply then a success reply, on the list
path, resolves exactly as the immediate success would. -/
theorem c2_rate_limit_retry_invisible_witness :
    (fetchContracts 5 (some "abc")
        ([HttpOutcome.failure ⟨some 429⟩] ++ [HttpOutcome.success ⟨[], ⟨none⟩⟩])).result =
      (fetchContracts 5 (some "abc") [HttpOutcome.success ⟨[], ⟨none⟩⟩]).result ∧
    (fetchContracts 5 (some "abc")
        ([HttpOutcome.failure ⟨some 429⟩] ++ [HttpOutcome.success ⟨[], ⟨none⟩⟩])).result =
      RunOutcome.ok (some ⟨[], ⟨none⟩⟩) :=
  c2_rate_limit_retry_invisible.1 5 (some "abc")
    [HttpOutcome.failure ⟨some 429⟩] ⟨[], ⟨none⟩⟩ (by decide)

/-- C3: at an unexpected failure (HTTP 500), the list and detail paths each log
exactly one error, but the call path (`contractCallRequest`) logs nothing and
silently resolves to null — the `name !== contractCallRequest` conjunct
suppresses every log on the call path, so logging is not identical across the
three operations as the claim requires. -/
theorem c3_unexpected_error_logging_divergence :
    errorLogCount (fetchContracts 100 none [HttpOutcome.failure ⟨some 500⟩]).logs = 1 ∧
    errorLogCount (fetchContractObject "0.0.999" [HttpOutcome.failure ⟨some 500⟩]).logs = 1 ∧
    errorLogCount (contractCallRequest ⟨"0xabc", "0x01"⟩
      [HttpOutcome.failure ⟨some 500⟩]).logs = 0 ∧
    (contractCallRequest ⟨"0xabc", "0x01"⟩ [HttpOutcome.failure ⟨some 500⟩]).result =
      RunOutcome.ok none :=
  ⟨rfl, rfl, rfl, rfl⟩

/-- C4: every scanner operation run resolves without an escaped exception, and
as soon as the reply list contains any non-rate-limited outcome the run
resolves to an explicit value-or-null. -/
theorem c4_resolves_value_or_null :
    ∀ (scanContractLimit : Nat) (next : Option String)
      (listReplies : List (HttpOutcome ContractListBody))
      (contractId : String) (detailReplies : List (HttpOutcome MirrorNodeContractResponse))
      (callData : ContractCallData) (callReplies : List (HttpOutcome ContractCallBody)),
      (((fetchContracts scanContractLimit next listReplies).result).isThrown = false ∧
        ((∃ o ∈ listReplies, isRateLimited o = false) →
          ∃ v, (fetchContracts scanContractLimit next listReplies).result = RunOutcome.ok v)) ∧
      (((fetchContractObject contractId detailReplies).result).isThrown = false ∧
        ((∃ o ∈ detailReplies, isRateLimited o = false) →
          ∃ v, (fetchContractObject contractId detailReplies).result = RunOutcome.ok v)) ∧
      (((contractCallRequest callData callReplies).result).isThrown = false ∧
        ((∃ o ∈ callReplies, isRateLimited o = false) →
          ∃ v, (contractCallRequest callData callReplies).result = RunOutcome.ok v)) := by
  intro scanContractLimit next listReplies contractId detailReplies callData callReplies
  exact ⟨⟨fetchContracts_not_thrown scanContractLimit next listReplies,
          fetchContracts_resolves scanContractLimit next listReplies⟩,
         ⟨fetchContractObject_not_thrown contractId detailReplies,
          fetchContractObject_resolves contractId detailReplies⟩,
         ⟨contractCallRequest_not_thrown callData callReplies,
          contractCallRequest_resolves callData callReplies⟩⟩

/-- Witness for C4: a network error (no HTTP response) on the list path — no
exception escapes and the run resolves to an explicit absence. -/
theorem c4_resolves_value_or_null_witness :
    ((fetchContracts 1 none [HttpOutcome.failure ⟨none⟩]).result).isThrown = false ∧
    ∃ v, (fetchContracts 1 none [HttpOutcome.failure ⟨none⟩]).result = RunOutcome.ok v :=
  ⟨(c4_resolves_value_or_null 1 none [HttpOutcome.failure ⟨none⟩] "0.0.1" [] ⟨"a", "b"⟩ []).1.1,
   (c4_resolves_value_or_null 1 none [HttpOutcome.failure ⟨none⟩] "0.0.1" [] ⟨"a", "b"⟩ []).1.2
     ⟨HttpOutcome.failure ⟨none⟩, by decide, rfl⟩⟩

/-- C5: every request a scanner operation issues — the original and every
retry after a rate limit — carries exactly the original parameter: the built
list query with the verbatim cursor, the detail path of the given id, or the
given call descriptor. -/
theorem c5_retry_preserves_params :
    (∀ (scanContractLimit : Nat) (next : Option String)
       (replies : List (HttpOutcome ContractListBody)) (q : ListQuery),
       q ∈ (fetchContracts scanContractLimit next replies).requests →
       q = buildUrl next scanContractLimit) ∧
    (∀ (contractId : String) (replies : List (HttpOutcome MirrorNodeContractResponse))
       (q : String),
       q ∈ (fetchContractObject contractId replies).requests → q = detailPath contractId) ∧
    (∀ (callData : ContractCallData) (replies : List (HttpOutcome ContractCallBody))
       (q : ContractCallData),
       q ∈ (contractCallRequest callData replies).requests → q = callData) :=
  ⟨fetchContracts_requests_eq, fetchContractObject_requests_eq, contractCallRequest_requests_eq⟩

/-- Witness for C5: a run with one rate-limited attempt and one success — the
retried request carries the same cursor and limit as the original. -/
theorem c5_retry_preserves_params_witness :
    buildUrl (some "abc") 5 ∈ (fetchContracts 5 (some "abc")
      [HttpOutcome.failure ⟨some 429⟩, HttpOutcome.success ⟨[], ⟨none⟩⟩]).requests ∧
    buildUrl (some "abc") 5 = buildUrl (some "abc") 5 :=
  ⟨by decide,
   c5_retry_preserves_params.1 5 (some "abc")
     [HttpOutcome.failure ⟨some 429⟩, HttpOutcome.success ⟨[], ⟨none⟩⟩]
     (buildUrl (some "abc") 5) (by decide)⟩

/-- C6: every list request a scan issues carries a limit of at most the
configured page-size bound and omits the cursor query parameter exactly when
the cursor argument is absent. -/
theorem c6_list_query_bounds :
    ∀ (scanContractLimit : Nat) (next : Option String)
      (replies : List (HttpOutcome ContractListBody)) (q : ListQuery),
      q ∈ (fetchContracts scanContractLimit next replies).requests →
      q.limit ≤ scanContractLimit ∧ (q.cursor = none ↔ next = none) := by
  intro scanContractLimit next replies q hq
  have h := fetchContracts_requests_eq scanContractLimit next replies q hq
  subst h
  exact ⟨Nat.le_refl scanContractLimit, Iff.rfl⟩

/-- Witness for C6: the very first request of a scan (absent cursor) with
bound 7 requests at most 7 items and omits the cursor. -/
theorem c6_list_query_bounds_witness :
    (buildUrl none 7).limit ≤ 7 ∧
    ((buildUrl none 7).cursor = none ↔ (none : Option String) = none) :=
  c6_list_query_bounds 7 none [] (buildUrl none 7) (by decide)

/-- C7: on a success reply from the call-execution endpoint,
`contractCallRequest` resolves to exactly the decoded inner `result` field of
the response body. -/
theorem c7_call_success_returns_inner_result :
    ∀ (callData : ContractCallData) (body : ContractCallBody)
      (rest : List (HttpOutcome ContractCallBody)),
      (contractCallRequest callData (HttpOutcome.success body :: rest)).result =
        RunOutcome.ok (some body.result) := by
  intro callData body rest
  rfl

/-- C9: in the shared handler, a 429 status always takes the wait-and-retry
branch first, whatever the retry method's name — it is never logged as an
error and never turned directly into a null resolution. -/
theorem c9_rate_limit_precedence :
    ∀ (ρ α : Type) (error : AxiosErrorLike) (retryMethodName : String) (retryRun : Run ρ α),
      error.status? = some 429 →
      handleAxiosError error retryMethodName retryRun =
        { result := retryRun.result,
          logs := LogEntry.info rateLimitLogMsg :: retryRun.logs,
          requests := retryRun.requests } :=
  fun _ _ error retryMethodName retryRun h =>
    handleAxiosError_of_rateLimit error retryMethodName retryRun h

/-- Witness for C9: a 429 on the call-request path itself is retried, not
silenced or logged. -/
theorem c9_rate_limit_precedence_witness :
    handleAxiosError ⟨some 429⟩ contractCallRequestName
        (Run.mk (RunOutcome.ok (none : Option Nat)) [] ([] : List Nat)) =
      { result := RunOutcome.ok none,
        logs := [LogEntry.info rateLimitLogMsg],
        requests := [] } :=
  c9_rate_limit_precedence Nat Nat ⟨some 429⟩ contractCallRequestName
    ⟨RunOutcome.ok none, [], []⟩ rfl

/-- Counterexample for C8: when the switch request rejects with a value whose
`error` property is absent, `switchToHederaTestnet` lets a TypeError escape
its boundary — the claim that every wallet operation never throws is false at
this input. -/
theorem c8_switch_throws_counterexample :
    (switchToHederaTestnet (SendOutcome.reject ⟨none⟩)
        (SendOutcome.resolve ())).isThrows = true :=
  rfl

/-- C8 (amended): `getBalance`, `getCurrentChainId`, `requestAccount` and
`addEthereumChain` return a payload or a structured error value for every
provider behaviour and never throw; `switchToHederaTestnet` does so too
provided every rejection of the switch request carries an inner `error`
object — otherwise its `error.error.code` access throws. -/
theorem c8_wallet_no_throw_amended :
    (∀ (account : String) (o : SendOutcome String), (getBalance account o).isThrows = false) ∧
    (∀ (o : SendOutcome String), (getCurrentChainId o).isThrows = false) ∧
    (∀ (o : SendOutcome (List String)), (requestAccount o).isThrows = false) ∧
    (∀ (o : SendOutcome Unit), (addEthereumChain o).isThrows = false) ∧
    (∀ (switchOutcome addOutcome : SendOutcome Unit),
       (∀ e, switchOutcome = SendOutcome.reject e → e.inner.isSome = true) →
       (switchToHederaTestnet switchOutcome addOutcome).isThrows = false) := by
  refine ⟨?_, ?_, ?_, ?_, ?_⟩
  · intro account o; cases o <;> rfl
  · intro o; cases o <;> rfl
  · intro o; cases o <;> rfl
  · intro o; cases o <;> rfl
  · intro switchOutcome addOutcome h
    cases switchOutcome with
    | resolve v => rfl
    | reject e =>
        have he : e.inner.isSome = true := h e rfl
        rcases e with ⟨inner⟩
        cases inner with
        | none => simp at he
        | some innerObj =>
            by_cases hc : innerObj.code = some 4902
            · simp only [switchToHederaTestnet, hc, if_pos]
              cases addOutcome <;> rfl
            · simp only [switchToHederaTestnet, if_neg hc]
              rfl

/-- Witness for C8 (amended): a rejection that does carry an inner error
object (code 4902) is handled without any escaped exception. -/
theorem c8_wallet_no_throw_amended_witness :
    (switchToHederaTestnet (SendOutcome.reject ⟨some ⟨some 4902⟩⟩)
        (SendOutcome.resolve ())).isThrows = false :=
  c8_wallet_no_throw_amended.2.2.2.2 (SendOutcome.reject ⟨some ⟨some 4902⟩⟩)
    (SendOutcome.resolve ()) (by intro e he; cases he; rfl)

/-- C10: with no injected wallet object — `window` undefined or
`window.ethereum` absent — `getWalletProvider` returns the structured error
value carrying `!HEDERA` and constructs no provider. -/
theorem c10_no_wallet_hedera_err :
    ∀ (window : Option WindowObj),
      (window = none ∨ ∃ w, window = some w ∧ w.ethereum = none) →
      getWalletProvider window = ProviderResult.errResult (ErrField.message "!HEDERA") := by
  intro window h
  rcases h with rfl | ⟨w, rfl, hw⟩
  · rfl
  · simp [getWalletProvider, getWalletObject, hw]

/-- Witness for C10: an undefined `window` yields exactly the structured
`!HEDERA` error value. -/
theorem c10_no_wallet_hedera_err_witness :
    getWalletProvider none = ProviderResult.errResult (ErrField.message "!HEDERA") :=
  c10_no_wallet_hedera_err none (Or.inl rfl)
